import Mathlib

/-!
Shallow embedding of the media-player visualizer core (`src/visualizer.js`).

JavaScript numbers are modelled as exact rationals (`ℚ`); `Math.floor`
is `Int.floor`.  The color strings produced by `getColor` are modelled as a
small inductive type, and every call the renderers make on the 2D canvas
context is recorded as one element of a `CanvasOp` list, in source order.
`Math.cos`, `Math.sin` and `Math.PI` (used only by the circular renderer)
are opaque to the program, so they are passed in as an explicit environment.
-/

namespace MediaViz

/-- CSS color values produced by the visualizer: the template strings
`rgb(r, g, b)`, `rgba(r, g, b, a)` and `hsl(h, s%, l%)`. -/
inductive JsColor where
  | rgb (r g b : ℤ)
  | rgba (r g b : ℤ) (a : ℚ)
  | hsl (h s l : ℚ)
  deriving DecidableEq

/-- Values assignable to `ctx.fillStyle`: a plain color or a linear
gradient (`createLinearGradient` endpoints plus its `addColorStop` list). -/
inductive FillStyle where
  | color (c : JsColor)
  | linearGradient (x0 y0 x1 y1 : ℚ) (stops : List (ℚ × JsColor))
  deriving DecidableEq

/-- One call or property assignment on the 2D canvas context, recorded in
the order the source issues them. -/
inductive CanvasOp where
  | setFillStyle (s : FillStyle)
  | fillRect (x y w h : ℚ)
  | setLineWidth (w : ℚ)
  | setStrokeStyle (c : JsColor)
  | beginPath
  | moveTo (x y : ℚ)
  | lineTo (x y : ℚ)
  | stroke
  | setShadowBlur (b : ℚ)
  | setShadowColor (c : JsColor)
  | arc (x y r a0 a1 : ℚ)
  | fill
  deriving DecidableEq

/-- Visualizer.getColor (visualizer.js lines 178-206): dictionary of five
scheme closures, with `schemes[this.colorScheme] ? ... : schemes.classic()`
as the fallback for any unknown scheme string. -/
def getColor (scheme : String) (index total intensity : ℚ) : JsColor :=
  if scheme = "classic" then
    JsColor.rgb 0 ⌊intensity * 150⌋ ⌊100 + intensity * 155⌋
  else if scheme = "fire" then
    JsColor.rgb ⌊200 + intensity * 55⌋ ⌊intensity * 100⌋ 0
  else if scheme = "ocean" then
    JsColor.rgb 0 ⌊intensity * 200⌋ ⌊150 + intensity * 105⌋
  else if scheme = "rainbow" then
    JsColor.hsl (index / total * 360) 100 (50 + intensity * 20)
  else if scheme = "neon" then
    JsColor.rgb 0 ⌊200 + intensity * 55⌋ ⌊intensity * 100⌋
  else
    JsColor.rgb 0 ⌊intensity * 150⌋ ⌊100 + intensity * 155⌋

/-- Environment for the opaque math functions the circular renderer uses. -/
structure MathEnv where
  cosF : ℚ → ℚ
  sinF : ℚ → ℚ
  piV : ℚ

/-- The opening `fillStyle = 'rgb(0, 0, 0)'; fillRect(0, 0, width, height)`
pair every renderer starts with. -/
def bgOps (width height : ℚ) : List CanvasOp :=
  [CanvasOp.setFillStyle (FillStyle.color (JsColor.rgb 0 0 0)),
   CanvasOp.fillRect 0 0 width height]

/-- Loop body of drawBars: `k` is the number of iterations left, `i` the
current index, `x` the running x coordinate (`x += barWidth + 1`). -/
def barsLoop (scheme : String) (height : ℚ) (dataArray : List ℚ)
    (bufferLength : ℕ) (barWidth : ℚ) : ℕ → ℕ → ℚ → List CanvasOp
  | _, 0, _ => []
  | i, k + 1, x =>
    let v := dataArray.getD i 0
    let barHeight := v / 255 * height
    let intensity := v / 255
    [CanvasOp.setFillStyle
       (FillStyle.color (getColor scheme i bufferLength intensity)),
     CanvasOp.fillRect x (height - barHeight) barWidth barHeight]
    ++ barsLoop scheme height dataArray bufferLength barWidth
         (i + 1) k (x + (barWidth + 1))

/-- Visualizer.drawBars (lines 236-252). -/
def drawBars (width height : ℚ) (scheme : String) (dataArray : List ℚ)
    (bufferLength : ℕ) : List CanvasOp :=
  bgOps width height ++
    barsLoop scheme height dataArray bufferLength (width / bufferLength)
      0 bufferLength 0

/-- Loop body of drawOscilloscope: first point uses `moveTo`, the rest
`lineTo`; `x += sliceWidth` each iteration. -/
def oscLoop (height : ℚ) (dataArray : List ℚ) (sliceWidth : ℚ) :
    ℕ → ℕ → ℚ → List CanvasOp
  | _, 0, _ => []
  | i, k + 1, x =>
    let v := dataArray.getD i 0 / 128
    let y := v * height / 2
    (if i = 0 then [CanvasOp.moveTo x y] else [CanvasOp.lineTo x y])
    ++ oscLoop height dataArray sliceWidth (i + 1) k (x + sliceWidth)

/-- Visualizer.drawOscilloscope (lines 254-286). -/
def drawOscilloscope (width height : ℚ) (scheme : String)
    (dataArray : List ℚ) (bufferLength : ℕ) : List CanvasOp :=
  bgOps width height ++
  [CanvasOp.setLineWidth 2,
   CanvasOp.setStrokeStyle (getColor scheme 0 1 1),
   CanvasOp.beginPath]
  ++ oscLoop height dataArray (width / bufferLength) 0 bufferLength 0
  ++ [CanvasOp.lineTo width (height / 2), CanvasOp.stroke,
      CanvasOp.setShadowBlur 10,
      CanvasOp.setShadowColor (getColor scheme 0 1 1),
      CanvasOp.stroke, CanvasOp.setShadowBlur 0]

/-- Loop body of drawSpectrum: gradient-filled column plus reflection. -/
def spectrumLoop (scheme : String) (height : ℚ) (dataArray : List ℚ)
    (bufferLength : ℕ) (barWidth : ℚ) : ℕ → ℕ → List CanvasOp
  | _, 0 => []
  | i, k + 1 =>
    let v := dataArray.getD i 0
    let barHeight := v / 255 * height * 0.8
    let intensity := v / 255
    let x : ℚ := i * barWidth
    [CanvasOp.setFillStyle
       (FillStyle.linearGradient 0 (height - barHeight) 0 height
         [(0, getColor scheme i bufferLength 1),
          (1, getColor scheme i bufferLength 0.3)]),
     CanvasOp.fillRect x (height - barHeight) (barWidth - 1) barHeight,
     CanvasOp.setFillStyle
       (FillStyle.linearGradient 0 height 0 (height + barHeight * 0.3)
         [(0, getColor scheme i bufferLength (intensity * 0.3)),
          (1, JsColor.rgba 0 0 0 0)]),
     CanvasOp.fillRect x height (barWidth - 1) (barHeight * 0.3)]
    ++ spectrumLoop scheme height dataArray bufferLength barWidth (i + 1) k

/-- Visualizer.drawSpectrum (lines 288-315). -/
def drawSpectrum (width height : ℚ) (scheme : String) (dataArray : List ℚ)
    (bufferLength : ℕ) : List CanvasOp :=
  bgOps width height ++
    spectrumLoop scheme height dataArray bufferLength (width / bufferLength)
      0 bufferLength

/-- Loop body of drawCircular: one stroked radial segment per sample. -/
def circularLoop (m : MathEnv) (scheme : String) (dataArray : List ℚ)
    (bufferLength : ℕ) (cx cy radius : ℚ) : ℕ → ℕ → List CanvasOp
  | _, 0 => []
  | i, k + 1 =>
    let angle := (i : ℚ) / bufferLength * m.piV * 2
    let v := dataArray.getD i 0
    let barHeight := v / 255 * radius
    let intensity := v / 255
    let x1 := cx + m.cosF angle * radius
    let y1 := cy + m.sinF angle * radius
    let x2 := cx + m.cosF angle * (radius + barHeight)
    let y2 := cy + m.sinF angle * (radius + barHeight)
    [CanvasOp.setStrokeStyle (getColor scheme i bufferLength intensity),
     CanvasOp.setLineWidth 3, CanvasOp.beginPath,
     CanvasOp.moveTo x1 y1, CanvasOp.lineTo x2 y2, CanvasOp.stroke]
    ++ circularLoop m scheme dataArray bufferLength cx cy radius (i + 1) k

/-- Visualizer.drawCircular (lines 317-356): radial segments, then the
unconditional center disc drawn twice (plain and with glow). -/
def drawCircular (m : MathEnv) (width height : ℚ) (scheme : String)
    (dataArray : List ℚ) (bufferLength : ℕ) : List CanvasOp :=
  let cx := width / 2
  let cy := height / 2
  let radius := min width height / 3
  bgOps width height ++
  [CanvasOp.beginPath]
  ++ circularLoop m scheme dataArray bufferLength cx cy radius 0 bufferLength
  ++ [CanvasOp.beginPath, CanvasOp.arc cx cy (radius * 0.1) 0 (m.piV * 2),
      CanvasOp.setFillStyle (FillStyle.color (getColor scheme 0 1 1)),
      CanvasOp.fill,
      CanvasOp.setShadowBlur 20,
      CanvasOp.setShadowColor (getColor scheme 0 1 1),
      CanvasOp.fill, CanvasOp.setShadowBlur 0]

/-!
State machine of the Visualizer class.  Opaque object references are
modelled by whether they are non-null (`Bool`); `setInterval` is modelled
by allocating a fresh timer id, keeping the environment's multiset of live
timers explicit so that "at most one live timer" is a real statement and
not a consequence of storing an `Option`.  Calls the instance makes on the
delegated butterchurn engine are recorded in the `loads` log (preset name
and transition seconds).  `butterchurn.createVisualizer` sits in a
`try`/`catch`; whether it succeeds is an input (`glOk`) of each step that
may reach it.
-/

/-- Mutable fields of a Visualizer instance (constructor lines 8-33),
plus the instrumentation fields `liveTimers`, `recreations` and `loads`
that record externally observable effects. -/
structure VizState where
  type : String
  ctx2d : Bool
  butterchurnVisualizer : Bool
  audioContext : Bool
  butterchurnAudioNode : Bool
  colorScheme : String
  isAutoRotating : Bool
  autoRotateInterval : Option ℕ
  liveTimers : List ℕ
  nextTimerId : ℕ
  recreations : ℕ
  loads : List (String × ℚ)
  currentPresetIndex : ℕ
  presetKeys : List String
  width : ℚ
  height : ℚ
  deriving DecidableEq

/-- Constructor state: `type = 'milkdrop'`, so the 2D context is not
acquired; butterchurn creation waits for `initButterchurn`. -/
def initState (keys : List String) (idx : ℕ) (w h : ℚ) (audio : Bool) :
    VizState :=
  { type := "milkdrop", ctx2d := false, butterchurnVisualizer := false,
    audioContext := audio, butterchurnAudioNode := false,
    colorScheme := "classic", isAutoRotating := true,
    autoRotateInterval := none, liveTimers := [], nextTimerId := 1,
    recreations := 0, loads := [], currentPresetIndex := idx,
    presetKeys := keys, width := w, height := h }

/-- Visualizer.stopAutoRotate (lines 144-149). -/
def stopAutoRotate (s : VizState) : VizState :=
  match s.autoRotateInterval with
  | some id =>
      { s with autoRotateInterval := none,
               liveTimers := s.liveTimers.erase id }
  | none => s

/-- Visualizer.startAutoRotate (lines 135-142): cancels any existing
interval, then registers a fresh one. -/
def startAutoRotate (s : VizState) : VizState :=
  let s1 := stopAutoRotate s
  { s1 with autoRotateInterval := some s1.nextTimerId,
            liveTimers := s1.nextTimerId :: s1.liveTimers,
            nextTimerId := s1.nextTimerId + 1 }

/-- Visualizer.loadPreset (lines 125-133): delegates only when the engine
instance exists and the name maps to a (truthy) preset object. -/
def loadPreset (s : VizState) (presetName : String) : VizState :=
  if s.butterchurnVisualizer ∧ presetName ∈ s.presetKeys then
    { s with loads := s.loads ++ [(presetName, 2)] }
  else s

/-- Visualizer.setPreset (lines 114-123). -/
def setPreset (s : VizState) (presetName : String) : VizState :=
  if presetName = "auto" then
    startAutoRotate { s with isAutoRotating := true }
  else
    loadPreset (stopAutoRotate { s with isAutoRotating := false }) presetName

/-- Visualizer.createButterchurnInstance (lines 86-108).  `glOk` is
whether `butterchurn.createVisualizer` succeeds; on failure the `catch`
leaves the state untouched.  `presetKeys[currentPresetIndex]` out of range
yields `undefined`, on which loadPreset is a no-op. -/
def createButterchurnInstance (glOk : Bool) (s : VizState) : VizState :=
  if s.butterchurnVisualizer then s
  else if glOk then
    let s1 := { s with butterchurnVisualizer := true }
    let s2 := match s1.presetKeys.get? s1.currentPresetIndex with
              | some name => loadPreset s1 name
              | none => s1
    if s2.isAutoRotating then startAutoRotate s2 else s2
  else s

/-- Visualizer.recreateCanvas (lines 58-74): fresh canvas, both context
handles reset. -/
def recreateCanvas (s : VizState) : VizState :=
  { s with ctx2d := false, butterchurnVisualizer := false,
           recreations := s.recreations + 1 }

/-- Visualizer.setType (lines 151-172). -/
def setType (glOk : Bool) (s : VizState) (t : String) : VizState :=
  let oldType := s.type
  let s1 := { s with type := t }
  let isWebgl := t == "milkdrop"
  let wasWebgl := oldType == "milkdrop"
  if isWebgl = wasWebgl then s1
  else
    let s2 := recreateCanvas s1
    if isWebgl then
      if s2.audioContext then createButterchurnInstance glOk s2 else s2
    else
      { stopAutoRotate s2 with ctx2d := true }

/-- Visualizer.initButterchurn (lines 76-84). -/
def initButterchurn (glOk : Bool) (s : VizState) : VizState :=
  let s1 := { s with audioContext := true, butterchurnAudioNode := true }
  if s1.type = "milkdrop" then createButterchurnInstance glOk s1 else s1

/-- Visualizer.setColorScheme (lines 174-176). -/
def setColorScheme (s : VizState) (scheme : String) : VizState :=
  { s with colorScheme := scheme }

/-- Visualizer.clear (lines 49-56): background fill (no state change) and
stopAutoRotate. -/
def clearOp (s : VizState) : VizState :=
  stopAutoRotate s

/-- One firing of the auto-rotate interval callback (lines 137-141).
Fires only while the interval is live; `r` stands for the random draw, so
`Math.floor(Math.random() * presetKeys.length)` is `r % length` (and `0`
for an empty catalog, where the lookup then yields `undefined` and
loadPreset ignores it). -/
def tick (s : VizState) (r : ℕ) : VizState :=
  match s.autoRotateInterval with
  | none => s
  | some _ =>
    let idx := if s.presetKeys.length = 0 then 0 else r % s.presetKeys.length
    let s1 := { s with currentPresetIndex := idx }
    match s1.presetKeys.get? idx with
    | some name => loadPreset s1 name
    | none => s1

/-- External events a Visualizer instance reacts to. -/
inductive Ev where
  | setTypeE (glOk : Bool) (t : String)
  | setPresetE (name : String)
  | setColorSchemeE (scheme : String)
  | initButterchurnE (glOk : Bool)
  | clearE
  | tickE (r : ℕ)

/-- Event dispatch. -/
def step (s : VizState) : Ev → VizState
  | Ev.setTypeE g t => setType g s t
  | Ev.setPresetE n => setPreset s n
  | Ev.setColorSchemeE c => setColorScheme s c
  | Ev.initButterchurnE g => initButterchurn g s
  | Ev.clearE => clearOp s
  | Ev.tickE r => tick s r

/-- Run a sequence of events. -/
def run (s : VizState) (evs : List Ev) : VizState := evs.foldl step s

/-- Outcome of one Visualizer.draw call (lines 208-234): delegation to the
butterchurn engine (`rendered` iff the instance exists), a list of 2D
context operations, or the TypeError a JS renderer would raise when
`this.ctx` is null. -/
inductive DrawOut where
  | delegated (rendered : Bool)
  | ops (l : List CanvasOp)
  | jsTypeError
  deriving DecidableEq

/-- Visualizer.draw (lines 208-234).  The app passes the analyser's
`dataArray` and `bufferLength` together, so both arguments are either
present or absent (`none` = `undefined`); with `bufferLength` undefined
every renderer loop bound `i < bufferLength` is false, hence zero
iterations, which is what `Option.getD 0` yields. -/
def draw (m : MathEnv) (s : VizState) (dataArray : Option (List ℚ))
    (bufferLength : Option ℕ) : DrawOut :=
  if s.type = "milkdrop" then
    DrawOut.delegated s.butterchurnVisualizer
  else if s.ctx2d = false then
    DrawOut.jsTypeError
  else
    let d := dataArray.getD []
    let n := bufferLength.getD 0
    if s.type = "bars" then
      DrawOut.ops (drawBars s.width s.height s.colorScheme d n)
    else if s.type = "oscilloscope" then
      DrawOut.ops (drawOscilloscope s.width s.height s.colorScheme d n)
    else if s.type = "spectrum" then
      DrawOut.ops (drawSpectrum s.width s.height s.colorScheme d n)
    else if s.type = "circular" then
      DrawOut.ops (drawCircular m s.width s.height s.colorScheme d n)
    else
      DrawOut.ops (drawBars s.width s.height s.colorScheme d n)

/-- Context-exclusion invariant: in milkdrop mode the 2D handle is null;
in any other mode the 2D handle is live and the WebGL engine handle is
null. -/
def ctxInv (s : VizState) : Prop :=
  if s.type = "milkdrop" then s.ctx2d = false
  else s.ctx2d = true ∧ s.butterchurnVisualizer = false

/-- The live timers a stored interval handle accounts for. -/
def timerList : Option ℕ → List ℕ
  | some id => [id]
  | none => []

/-- Timer invariant: the environment's live intervals are exactly the one
the instance holds (in particular, at most one is ever live). -/
def timerInv (s : VizState) : Prop :=
  s.liveTimers = timerList s.autoRotateInterval

instance (s : VizState) : Decidable (ctxInv s) := by
  unfold ctxInv; infer_instance

instance (s : VizState) : Decidable (timerInv s) := by
  unfold timerInv; infer_instance

/-- The color mapping as spec section 4.1 words it, under the claim's
reading that every channel value -- including rainbow's hue and
lightness -- is a floored integer.  Written from the spec text, to be
compared against getColor. -/
def colorSpecFloored (scheme : String) (index total intensity : ℚ) :
    JsColor :=
  if scheme = "classic" then
    JsColor.rgb 0 ⌊150 * intensity⌋ ⌊100 + 155 * intensity⌋
  else if scheme = "fire" then
    JsColor.rgb ⌊200 + 55 * intensity⌋ ⌊100 * intensity⌋ 0
  else if scheme = "ocean" then
    JsColor.rgb 0 ⌊200 * intensity⌋ ⌊150 + 105 * intensity⌋
  else if scheme = "rainbow" then
    JsColor.hsl ((⌊360 * (index / total)⌋ : ℤ) : ℚ) 100
      ((⌊50 + 20 * intensity⌋ : ℤ) : ℚ)
  else if scheme = "neon" then
    JsColor.rgb 0 ⌊200 + 55 * intensity⌋ ⌊100 * intensity⌋
  else
    JsColor.rgb 0 ⌊150 * intensity⌋ ⌊100 + 155 * intensity⌋

/-- Concrete math environment for evaluations: the double value of
`Math.PI`; the trig functions are never reached in the concrete frames
evaluated below (empty or bars-mode buffers), so they are arbitrary. -/
def mEnv0 : MathEnv :=
  { cosF := fun _ => 0, sinF := fun _ => 0,
    piV := 884279719003555 / 281474976710656 }

/-- Concrete engine in bars mode, as reached from the constructor state by
one setType call (no audio bound). -/
def barsState : VizState :=
  setType true (initState ["alpha"] 0 8 6 false) "bars"

/-- Concrete engine in oscilloscope mode, as reached from the constructor
state by one setType call. -/
def oscState : VizState :=
  setType true (initState ["alpha"] 0 8 6 false) "oscilloscope"

/-- Concrete engine in bars mode with an audio context bound. -/
def bars2State : VizState :=
  setType true (initState ["alpha"] 0 8 6 true) "bars"

/-- Concrete milkdrop-mode engine whose butterchurn instance exists and
whose catalog contains the preset named in the C3 scenario. -/
def c3State : VizState :=
  { initState ["stormy-night"] 0 8 6 true with butterchurnVisualizer := true }

/-! Field-preservation lemmas for the state operations. -/

@[simp]
lemma stopAutoRotate_fields (s : VizState) :
    (stopAutoRotate s).autoRotateInterval = none
    ∧ (stopAutoRotate s).type = s.type
    ∧ (stopAutoRotate s).ctx2d = s.ctx2d
    ∧ (stopAutoRotate s).butterchurnVisualizer = s.butterchurnVisualizer
    ∧ (stopAutoRotate s).audioContext = s.audioContext
    ∧ (stopAutoRotate s).butterchurnAudioNode = s.butterchurnAudioNode
    ∧ (stopAutoRotate s).colorScheme = s.colorScheme
    ∧ (stopAutoRotate s).isAutoRotating = s.isAutoRotating
    ∧ (stopAutoRotate s).nextTimerId = s.nextTimerId
    ∧ (stopAutoRotate s).recreations = s.recreations
    ∧ (stopAutoRotate s).loads = s.loads
    ∧ (stopAutoRotate s).currentPresetIndex = s.currentPresetIndex
    ∧ (stopAutoRotate s).presetKeys = s.presetKeys
    ∧ (stopAutoRotate s).width = s.width
    ∧ (stopAutoRotate s).height = s.height := by
  cases h : s.autoRotateInterval <;> simp [stopAutoRotate, h]

@[simp]
lemma startAutoRotate_fields (s : VizState) :
    (startAutoRotate s).autoRotateInterval = some s.nextTimerId
    ∧ (startAutoRotate s).nextTimerId = s.nextTimerId + 1
    ∧ (startAutoRotate s).liveTimers
        = s.nextTimerId :: (stopAutoRotate s).liveTimers
    ∧ (startAutoRotate s).type = s.type
    ∧ (startAutoRotate s).ctx2d = s.ctx2d
    ∧ (startAutoRotate s).butterchurnVisualizer = s.butterchurnVisualizer
    ∧ (startAutoRotate s).audioContext = s.audioContext
    ∧ (startAutoRotate s).butterchurnAudioNode = s.butterchurnAudioNode
    ∧ (startAutoRotate s).colorScheme = s.colorScheme
    ∧ (startAutoRotate s).isAutoRotating = s.isAutoRotating
    ∧ (startAutoRotate s).recreations = s.recreations
    ∧ (startAutoRotate s).loads = s.loads
    ∧ (startAutoRotate s).currentPresetIndex = s.currentPresetIndex
    ∧ (startAutoRotate s).presetKeys = s.presetKeys
    ∧ (startAutoRotate s).width = s.width
    ∧ (startAutoRotate s).height = s.height := by
  simp [startAutoRotate]

@[simp]
lemma loadPreset_fields (s : VizState) (n : String) :
    (loadPreset s n).autoRotateInterval = s.autoRotateInterval
    ∧ (loadPreset s n).liveTimers = s.liveTimers
    ∧ (loadPreset s n).nextTimerId = s.nextTimerId
    ∧ (loadPreset s n).type = s.type
    ∧ (loadPreset s n).ctx2d = s.ctx2d
    ∧ (loadPreset s n).butterchurnVisualizer = s.butterchurnVisualizer
    ∧ (loadPreset s n).audioContext = s.audioContext
    ∧ (loadPreset s n).butterchurnAudioNode = s.butterchurnAudioNode
    ∧ (loadPreset s n).colorScheme = s.colorScheme
    ∧ (loadPreset s n).isAutoRotating = s.isAutoRotating
    ∧ (loadPreset s n).recreations = s.recreations
    ∧ (loadPreset s n).currentPresetIndex = s.currentPresetIndex
    ∧ (loadPreset s n).presetKeys = s.presetKeys
    ∧ (loadPreset s n).width = s.width
    ∧ (loadPreset s n).height = s.height := by
  unfold loadPreset; split <;> simp

@[simp]
lemma createButterchurnInstance_fields (g : Bool) (s : VizState) :
    (createButterchurnInstance g s).type = s.type
    ∧ (createButterchurnInstance g s).ctx2d = s.ctx2d
    ∧ (createButterchurnInstance g s).audioContext = s.audioContext
    ∧ (createButterchurnInstance g s).butterchurnAudioNode
        = s.butterchurnAudioNode
    ∧ (createButterchurnInstance g s).colorScheme = s.colorScheme
    ∧ (createButterchurnInstance g s).isAutoRotating = s.isAutoRotating
    ∧ (createButterchurnInstance g s).recreations = s.recreations
    ∧ (createButterchurnInstance g s).presetKeys = s.presetKeys
    ∧ (createButterchurnInstance g s).width = s.width
    ∧ (createButterchurnInstance g s).height = s.height := by
  unfold createButterchurnInstance
  split
  · simp
  · split
    · dsimp only
      rcases hg : s.presetKeys.get? s.currentPresetIndex with _ | name <;>
        simp only [hg] <;> split <;> simp
    · simp

@[simp]
lemma recreateCanvas_fields (s : VizState) :
    (recreateCanvas s).type = s.type
    ∧ (recreateCanvas s).ctx2d = false
    ∧ (recreateCanvas s).butterchurnVisualizer = false
    ∧ (recreateCanvas s).audioContext = s.audioContext
    ∧ (recreateCanvas s).butterchurnAudioNode = s.butterchurnAudioNode
    ∧ (recreateCanvas s).colorScheme = s.colorScheme
    ∧ (recreateCanvas s).isAutoRotating = s.isAutoRotating
    ∧ (recreateCanvas s).autoRotateInterval = s.autoRotateInterval
    ∧ (recreateCanvas s).liveTimers = s.liveTimers
    ∧ (recreateCanvas s).nextTimerId = s.nextTimerId
    ∧ (recreateCanvas s).recreations = s.recreations + 1
    ∧ (recreateCanvas s).loads = s.loads
    ∧ (recreateCanvas s).currentPresetIndex = s.currentPresetIndex
    ∧ (recreateCanvas s).presetKeys = s.presetKeys
    ∧ (recreateCanvas s).width = s.width
    ∧ (recreateCanvas s).height = s.height := by
  simp [recreateCanvas]

@[simp]
lemma tick_fields (s : VizState) (r : ℕ) :
    (tick s r).type = s.type
    ∧ (tick s r).ctx2d = s.ctx2d
    ∧ (tick s r).butterchurnVisualizer = s.butterchurnVisualizer
    ∧ (tick s r).audioContext = s.audioContext
    ∧ (tick s r).butterchurnAudioNode = s.butterchurnAudioNode
    ∧ (tick s r).colorScheme = s.colorScheme
    ∧ (tick s r).isAutoRotating = s.isAutoRotating
    ∧ (tick s r).autoRotateInterval = s.autoRotateInterval
    ∧ (tick s r).liveTimers = s.liveTimers
    ∧ (tick s r).nextTimerId = s.nextTimerId
    ∧ (tick s r).recreations = s.recreations
    ∧ (tick s r).presetKeys = s.presetKeys
    ∧ (tick s r).width = s.width
    ∧ (tick s r).height = s.height := by
  unfold tick
  rcases h : s.autoRotateInterval with _ | id
  · simp [h]
  · dsimp only
    split <;> simp [h]

@[simp]
lemma setPreset_fields (s : VizState) (n : String) :
    (setPreset s n).type = s.type
    ∧ (setPreset s n).ctx2d = s.ctx2d
    ∧ (setPreset s n).butterchurnVisualizer = s.butterchurnVisualizer
    ∧ (setPreset s n).audioContext = s.audioContext
    ∧ (setPreset s n).butterchurnAudioNode = s.butterchurnAudioNode
    ∧ (setPreset s n).colorScheme = s.colorScheme
    ∧ (setPreset s n).recreations = s.recreations
    ∧ (setPreset s n).presetKeys = s.presetKeys
    ∧ (setPreset s n).width = s.width
    ∧ (setPreset s n).height = s.height := by
  unfold setPreset; split <;> simp

/-! Invariant preservation. -/

lemma timerInv_stopAutoRotate (s : VizState) (h : timerInv s) :
    timerInv (stopAutoRotate s) := by
  unfold timerInv at *
  rcases hI : s.autoRotateInterval with _ | id
  · rw [hI] at h
    simpa [stopAutoRotate, hI] using h
  · rw [hI] at h
    simp [stopAutoRotate, hI, h, timerList]

lemma timerInv_startAutoRotate (s : VizState) (h : timerInv s) :
    timerInv (startAutoRotate s) := by
  have h1 := timerInv_stopAutoRotate s h
  unfold timerInv at *
  simp [timerList] at h1 ⊢
  exact h1

lemma timerInv_loadPreset (s : VizState) (n : String) (h : timerInv s) :
    timerInv (loadPreset s n) := by
  unfold timerInv at *
  simp [h]

lemma timerInv_createButterchurnInstance (g : Bool) (s : VizState)
    (h : timerInv s) : timerInv (createButterchurnInstance g s) := by
  unfold createButterchurnInstance
  split
  · exact h
  · split
    · dsimp only
      have h1 : timerInv { s with butterchurnVisualizer := true } := by
        unfold timerInv at *; simpa using h
      rcases hG : s.presetKeys.get? s.currentPresetIndex with _ | name <;>
        simp only [hG] <;> split
      · exact timerInv_startAutoRotate _ h1
      · exact h1
      · exact timerInv_startAutoRotate _ (timerInv_loadPreset _ name h1)
      · exact timerInv_loadPreset _ name h1
    · exact h

lemma timerInv_step (s : VizState) (e : Ev) (h : timerInv s) :
    timerInv (step s e) := by
  cases e with
  | setTypeE g t =>
    show timerInv (setType g s t)
    unfold setType
    by_cases hc : (t == "milkdrop") = (s.type == "milkdrop")
    · simp only [hc, if_pos rfl]
      unfold timerInv at *; simpa using h
    · simp only [if_neg hc]
      have hrec : timerInv (recreateCanvas { s with type := t }) := by
        unfold timerInv at *; simpa using h
      split
      · split
        · exact timerInv_createButterchurnInstance _ _ hrec
        · exact hrec
      · have hstop := timerInv_stopAutoRotate _ hrec
        unfold timerInv at *; simpa using hstop
  | setPresetE n =>
    show timerInv (setPreset s n)
    unfold setPreset
    split
    · apply timerInv_startAutoRotate
      unfold timerInv at *; simpa using h
    · apply timerInv_loadPreset
      apply timerInv_stopAutoRotate
      unfold timerInv at *; simpa using h
  | setColorSchemeE c =>
    show timerInv (setColorScheme s c)
    unfold timerInv setColorScheme at *; simpa using h
  | initButterchurnE g =>
    show timerInv (initButterchurn g s)
    unfold initButterchurn
    dsimp only
    have h1 : timerInv { s with audioContext := true, butterchurnAudioNode := true } := by
      unfold timerInv at *; simpa using h
    split
    · exact timerInv_createButterchurnInstance _ _ h1
    · exact h1
  | clearE =>
    exact timerInv_stopAutoRotate s h
  | tickE r =>
    show timerInv (tick s r)
    unfold timerInv at *; simp [h]

lemma ctxInv_setType (g : Bool) (s : VizState) (t : String) (h : ctxInv s) :
    ctxInv (setType g s t) := by
  unfold setType
  dsimp only
  by_cases hc : (t == "milkdrop") = (s.type == "milkdrop")
  · have hiff : (t = "milkdrop") ↔ (s.type = "milkdrop") := by
      constructor <;> intro hx
      · have hb : (s.type == "milkdrop") = true := by
          rw [← hc]; exact beq_iff_eq.mpr hx
        exact beq_iff_eq.mp hb
      · have hb : (t == "milkdrop") = true := by
          rw [hc]; exact beq_iff_eq.mpr hx
        exact beq_iff_eq.mp hb
    rw [if_pos hc]
    by_cases ht : t = "milkdrop"
    · have hs := hiff.mp ht
      unfold ctxInv at h ⊢
      rw [if_pos hs] at h
      simpa [ht] using h
    · have hs : ¬ s.type = "milkdrop" := fun hx => ht (hiff.mpr hx)
      unfold ctxInv at h ⊢
      rw [if_neg hs] at h
      simpa [ht] using h
  · rw [if_neg hc]
    by_cases hw : (t == "milkdrop") = true
    · have ht : t = "milkdrop" := beq_iff_eq.mp hw
      rw [if_pos hw]
      by_cases haud :
          (recreateCanvas { s with type := t }).audioContext = true
      · rw [if_pos haud]
        unfold ctxInv
        simp [ht]
      · rw [if_neg haud]
        unfold ctxInv
        simp [ht]
    · have ht : ¬ t = "milkdrop" := fun hx => hw (beq_iff_eq.mpr hx)
      rw [if_neg hw]
      unfold ctxInv
      simp [ht]

lemma ctxInv_step (s : VizState) (e : Ev) (h : ctxInv s) :
    ctxInv (step s e) := by
  cases e with
  | setTypeE g t =>
    exact ctxInv_setType g s t h
  | setPresetE n =>
    show ctxInv (setPreset s n)
    unfold ctxInv at *
    rcases (setPreset_fields s n) with ⟨h1, h2, h3, -⟩
    rw [h1, h2, h3]
    exact h
  | setColorSchemeE c =>
    show ctxInv (setColorScheme s c)
    unfold ctxInv setColorScheme at *
    simpa using h
  | initButterchurnE g =>
    show ctxInv (initButterchurn g s)
    unfold initButterchurn
    dsimp only
    split
    · rename_i ht
      unfold ctxInv at *
      simp [ht] at h ⊢
      exact h
    · rename_i ht
      unfold ctxInv at *
      simp [ht] at h ⊢
      exact h
  | clearE =>
    show ctxInv (clearOp s)
    unfold ctxInv clearOp at *
    rcases (stopAutoRotate_fields s) with ⟨-, h1, h2, h3, -⟩
    rw [h1, h2, h3]
    exact h
  | tickE r =>
    show ctxInv (tick s r)
    unfold ctxInv at *
    rcases (tick_fields s r) with ⟨h1, h2, h3, -⟩
    rw [h1, h2, h3]
    exact h

lemma timerInv_run (s : VizState) (evs : List Ev) (h : timerInv s) :
    timerInv (run s evs) := by
  induction evs generalizing s with
  | nil => exact h
  | cons e rest ih => exact ih (step s e) (timerInv_step s e h)

lemma ctxInv_run (s : VizState) (evs : List Ev) (h : ctxInv s) :
    ctxInv (run s evs) := by
  induction evs generalizing s with
  | nil => exact h
  | cons e rest ih => exact ih (step s e) (ctxInv_step s e h)

lemma initState_ctxInv (keys : List String) (idx : ℕ) (w h : ℚ)
    (audio : Bool) : ctxInv (initState keys idx w h audio) := by
  unfold ctxInv initState; simp

lemma initState_timerInv (keys : List String) (idx : ℕ) (w h : ℚ)
    (audio : Bool) : timerInv (initState keys idx w h audio) := by
  unfold timerInv initState timerList; simp

/-! Characterizations of setType, draw and the rotation-timer runs. -/

@[simp]
lemma setType_fields (g : Bool) (s : VizState) (t : String) :
    (setType g s t).type = t
    ∧ (setType g s t).isAutoRotating = s.isAutoRotating
    ∧ (setType g s t).audioContext = s.audioContext
    ∧ (setType g s t).colorScheme = s.colorScheme
    ∧ (setType g s t).presetKeys = s.presetKeys
    ∧ (setType g s t).width = s.width
    ∧ (setType g s t).height = s.height := by
  unfold setType
  dsimp only
  by_cases hc : (t == "milkdrop") = (s.type == "milkdrop")
  · rw [if_pos hc]; simp
  · rw [if_neg hc]
    by_cases hw : (t == "milkdrop") = true
    · rw [if_pos hw]
      by_cases haud :
          (recreateCanvas { s with type := t }).audioContext = true
      · rw [if_pos haud]; simp
      · rw [if_neg haud]; simp
    · rw [if_neg hw]; simp

lemma setType_recreations (g : Bool) (s : VizState) (t : String) :
    (setType g s t).recreations =
      if (t == "milkdrop") = (s.type == "milkdrop") then s.recreations
      else s.recreations + 1 := by
  unfold setType
  dsimp only
  by_cases hc : (t == "milkdrop") = (s.type == "milkdrop")
  · rw [if_pos hc, if_pos hc]
  · rw [if_neg hc, if_neg hc]
    by_cases hw : (t == "milkdrop") = true
    · rw [if_pos hw]
      by_cases haud :
          (recreateCanvas { s with type := t }).audioContext = true
      · rw [if_pos haud]; simp
      · rw [if_neg haud]; simp
    · rw [if_neg hw]; simp

lemma draw_ne_typeError (m : MathEnv) (s : VizState) (h : ctxInv s)
    (d : Option (List ℚ)) (n : Option ℕ) :
    draw m s d n ≠ DrawOut.jsTypeError := by
  unfold draw
  unfold ctxInv at h
  by_cases ht : s.type = "milkdrop"
  · simp [ht]
  · rw [if_neg ht] at h
    simp only [if_neg ht, h.1]
    by_cases h1 : s.type = "bars" <;> by_cases h2 : s.type = "oscilloscope" <;>
      by_cases h3 : s.type = "spectrum" <;> by_cases h4 : s.type = "circular" <;>
      simp [h1, h2, h3, h4]

lemma run_ticks_of_noTimer (s : VizState)
    (h : s.autoRotateInterval = none) (rs : List ℕ) :
    run s (rs.map Ev.tickE) = s := by
  induction rs with
  | nil => rfl
  | cons r rest ih =>
    have hstep : step s (Ev.tickE r) = s := by
      show tick s r = s
      unfold tick
      rw [h]
    simp only [List.map_cons, run, List.foldl_cons, hstep]
    exact ih

lemma barsLoop_closedForm (scheme : String) (height : ℚ) (d : List ℚ)
    (N : ℕ) (bw : ℚ) (k : ℕ) :
    ∀ (i : ℕ) (x : ℚ),
      barsLoop scheme height d N bw i k x =
        (List.range k).flatMap (fun j =>
          [CanvasOp.setFillStyle (FillStyle.color
             (getColor scheme (↑(i + j)) (↑N) (d.getD (i + j) 0 / 255))),
           CanvasOp.fillRect (x + (↑j) * (bw + 1))
             (height - d.getD (i + j) 0 / 255 * height) bw
             (d.getD (i + j) 0 / 255 * height)]) := by
  induction k with
  | zero => intro i x; simp [barsLoop]
  | succ k ih =>
    intro i x
    rw [barsLoop, List.range_succ_eq_map, List.flatMap_cons, List.flatMap_map]
    rw [ih (i + 1) (x + (bw + 1))]
    congr 1
    · norm_num
    · apply congrArg
      funext j
      have hn : i + 1 + j = i + (j + 1) := by omega
      have hx : x + (bw + 1) + (↑j) * (bw + 1)
          = x + (↑(j + 1) : ℚ) * (bw + 1) := by
        push_cast
        ring
      rw [hn, hx]

/-- drawBars in closed form: the background then, per column `i`, the color
derived from the raw sample and the bottom-anchored rectangle. -/
lemma drawBars_closedForm (width height : ℚ) (scheme : String)
    (d : List ℚ) (N : ℕ) :
    drawBars width height scheme d N =
      bgOps width height ++
        (List.range N).flatMap (fun i =>
          [CanvasOp.setFillStyle (FillStyle.color
             (getColor scheme (↑i) (↑N) (d.getD i 0 / 255))),
           CanvasOp.fillRect ((↑i) * (width / (↑N) + 1))
             (height - d.getD i 0 / 255 * height) (width / (↑N))
             (d.getD i 0 / 255 * height)]) := by
  unfold drawBars
  rw [barsLoop_closedForm scheme height d N (width / (↑N)) N 0 0]
  congr 1
  apply congrArg
  funext j
  simp

lemma oscLoop_closedForm (height : ℚ) (d : List ℚ) (sw : ℚ) (k : ℕ) :
    ∀ (i : ℕ) (x : ℚ),
      oscLoop height d sw i k x =
        (List.range k).flatMap (fun j =>
          if i + j = 0 then
            [CanvasOp.moveTo (x + (↑j) * sw)
               (d.getD (i + j) 0 / 128 * height / 2)]
          else
            [CanvasOp.lineTo (x + (↑j) * sw)
               (d.getD (i + j) 0 / 128 * height / 2)]) := by
  induction k with
  | zero => intro i x; simp [oscLoop]
  | succ k ih =>
    intro i x
    rw [oscLoop, List.range_succ_eq_map, List.flatMap_cons, List.flatMap_map]
    rw [ih (i + 1) (x + sw)]
    congr 1
    · simp
    · apply congrArg
      funext j
      have hn : i + 1 + j = i + (j + 1) := by omega
      have hx : x + sw + (↑j) * sw = x + (↑(j + 1) : ℚ) * sw := by
        push_cast
        ring
      rw [hn, hx]

lemma spectrumLoop_closedForm (scheme : String) (height : ℚ) (d : List ℚ)
    (N : ℕ) (bw : ℚ) (k : ℕ) :
    ∀ i : ℕ,
      spectrumLoop scheme height d N bw i k =
        (List.range k).flatMap (fun j =>
          [CanvasOp.setFillStyle (FillStyle.linearGradient 0
             (height - d.getD (i + j) 0 / 255 * height * 0.8) 0 height
             [(0, getColor scheme (↑(i + j)) (↑N) 1),
              (1, getColor scheme (↑(i + j)) (↑N) 0.3)]),
           CanvasOp.fillRect ((↑(i + j)) * bw)
             (height - d.getD (i + j) 0 / 255 * height * 0.8) (bw - 1)
             (d.getD (i + j) 0 / 255 * height * 0.8),
           CanvasOp.setFillStyle (FillStyle.linearGradient 0 height 0
             (height + d.getD (i + j) 0 / 255 * height * 0.8 * 0.3)
             [(0, getColor scheme (↑(i + j)) (↑N)
                 (d.getD (i + j) 0 / 255 * 0.3)),
              (1, JsColor.rgba 0 0 0 0)]),
           CanvasOp.fillRect ((↑(i + j)) * bw) height (bw - 1)
             (d.getD (i + j) 0 / 255 * height * 0.8 * 0.3)]) := by
  induction k with
  | zero => intro i; simp [spectrumLoop]
  | succ k ih =>
    intro i
    rw [spectrumLoop, List.range_succ_eq_map, List.flatMap_cons,
      List.flatMap_map]
    rw [ih (i + 1)]
    refine congrArg₂ (fun a b => a ++ b) ?_ ?_
    · simp
    · apply congrArg
      funext j
      have hn : i + 1 + j = i + (j + 1) := by omega
      rw [hn]

lemma circularLoop_closedForm (m : MathEnv) (scheme : String) (d : List ℚ)
    (N : ℕ) (cx cy radius : ℚ) (k : ℕ) :
    ∀ i : ℕ,
      circularLoop m scheme d N cx cy radius i k =
        (List.range k).flatMap (fun j =>
          [CanvasOp.setStrokeStyle
             (getColor scheme (↑(i + j)) (↑N) (d.getD (i + j) 0 / 255)),
           CanvasOp.setLineWidth 3, CanvasOp.beginPath,
           CanvasOp.moveTo
             (cx + m.cosF ((↑(i + j)) / (↑N) * m.piV * 2) * radius)
             (cy + m.sinF ((↑(i + j)) / (↑N) * m.piV * 2) * radius),
           CanvasOp.lineTo
             (cx + m.cosF ((↑(i + j)) / (↑N) * m.piV * 2)
                * (radius + d.getD (i + j) 0 / 255 * radius))
             (cy + m.sinF ((↑(i + j)) / (↑N) * m.piV * 2)
                * (radius + d.getD (i + j) 0 / 255 * radius)),
           CanvasOp.stroke]) := by
  induction k with
  | zero => intro i; simp [circularLoop]
  | succ k ih =>
    intro i
    rw [circularLoop, List.range_succ_eq_map, List.flatMap_cons,
      List.flatMap_map]
    rw [ih (i + 1)]
    refine congrArg₂ (fun a b => a ++ b) ?_ ?_
    · simp
    · apply congrArg
      funext j
      have hn : i + 1 + j = i + (j + 1) := by omega
      rw [hn]

lemma drawOscilloscope_closedForm (width height : ℚ) (scheme : String)
    (d : List ℚ) (N : ℕ) :
    drawOscilloscope width height scheme d N =
      bgOps width height ++
      [CanvasOp.setLineWidth 2,
       CanvasOp.setStrokeStyle (getColor scheme 0 1 1),
       CanvasOp.beginPath]
      ++ (List.range N).flatMap (fun i =>
           if i = 0 then
             [CanvasOp.moveTo ((↑i) * (width / (↑N)))
                (d.getD i 0 / 128 * height / 2)]
           else
             [CanvasOp.lineTo ((↑i) * (width / (↑N)))
                (d.getD i 0 / 128 * height / 2)])
      ++ [CanvasOp.lineTo width (height / 2), CanvasOp.stroke,
          CanvasOp.setShadowBlur 10,
          CanvasOp.setShadowColor (getColor scheme 0 1 1),
          CanvasOp.stroke, CanvasOp.setShadowBlur 0] := by
  unfold drawOscilloscope
  rw [oscLoop_closedForm height d (width / (↑N)) N 0 0]
  congr 1
  congr 1
  apply congrArg
  funext j
  simp

lemma drawSpectrum_closedForm (width height : ℚ) (scheme : String)
    (d : List ℚ) (N : ℕ) :
    drawSpectrum width height scheme d N =
      bgOps width height ++
        (List.range N).flatMap (fun i =>
          [CanvasOp.setFillStyle (FillStyle.linearGradient 0
             (height - d.getD i 0 / 255 * height * 0.8) 0 height
             [(0, getColor scheme (↑i) (↑N) 1),
              (1, getColor scheme (↑i) (↑N) 0.3)]),
           CanvasOp.fillRect ((↑i) * (width / (↑N)))
             (height - d.getD i 0 / 255 * height * 0.8)
             (width / (↑N) - 1) (d.getD i 0 / 255 * height * 0.8),
           CanvasOp.setFillStyle (FillStyle.linearGradient 0 height 0
             (height + d.getD i 0 / 255 * height * 0.8 * 0.3)
             [(0, getColor scheme (↑i) (↑N) (d.getD i 0 / 255 * 0.3)),
              (1, JsColor.rgba 0 0 0 0)]),
           CanvasOp.fillRect ((↑i) * (width / (↑N))) height
             (width / (↑N) - 1)
             (d.getD i 0 / 255 * height * 0.8 * 0.3)]) := by
  unfold drawSpectrum
  rw [spectrumLoop_closedForm scheme height d N (width / (↑N)) N 0]
  congr 1
  apply congrArg
  funext j
  simp

lemma drawCircular_closedForm (m : MathEnv) (width height : ℚ)
    (scheme : String) (d : List ℚ) (N : ℕ) :
    drawCircular m width height scheme d N =
      bgOps width height ++ [CanvasOp.beginPath]
      ++ (List.range N).flatMap (fun i =>
           [CanvasOp.setStrokeStyle
              (getColor scheme (↑i) (↑N) (d.getD i 0 / 255)),
            CanvasOp.setLineWidth 3, CanvasOp.beginPath,
            CanvasOp.moveTo
              (width / 2 + m.cosF ((↑i) / (↑N) * m.piV * 2)
                 * (min width height / 3))
              (height / 2 + m.sinF ((↑i) / (↑N) * m.piV * 2)
                 * (min width height / 3)),
            CanvasOp.lineTo
              (width / 2 + m.cosF ((↑i) / (↑N) * m.piV * 2)
                 * (min width height / 3
                    + d.getD i 0 / 255 * (min width height / 3)))
              (height / 2 + m.sinF ((↑i) / (↑N) * m.piV * 2)
                 * (min width height / 3
                    + d.getD i 0 / 255 * (min width height / 3))),
            CanvasOp.stroke])
      ++ [CanvasOp.beginPath,
          CanvasOp.arc (width / 2) (height / 2)
            (min width height / 3 * 0.1) 0 (m.piV * 2),
          CanvasOp.setFillStyle (FillStyle.color (getColor scheme 0 1 1)),
          CanvasOp.fill, CanvasOp.setShadowBlur 20,
          CanvasOp.setShadowColor (getColor scheme 0 1 1),
          CanvasOp.fill, CanvasOp.setShadowBlur 0] := by
  unfold drawCircular
  dsimp only
  rw [circularLoop_closedForm m scheme d N (width / 2) (height / 2)
    (min width height / 3) N 0]
  congr 1
  congr 1
  apply congrArg
  funext j
  simp

lemma createB_success (s : VizState)
    (hbc : s.butterchurnVisualizer = false)
    (hrot : s.isAutoRotating = true) :
    (createButterchurnInstance true s).butterchurnVisualizer = true
    ∧ ∃ tid, (createButterchurnInstance true s).autoRotateInterval
        = some tid := by
  unfold createButterchurnInstance
  rw [if_neg (by simp [hbc])]
  rw [if_pos rfl]
  dsimp only
  rcases hG : s.presetKeys.get? s.currentPresetIndex with _ | name <;>
    simp only [hG]
  · rw [if_pos (by simp [hrot])]
    exact ⟨by simp, s.nextTimerId, by simp⟩
  · rw [if_pos (by simp [hrot])]
    exact ⟨by simp, s.nextTimerId, by simp⟩

/-!
Claim theorems.
-/

/-- C1: after any event sequence from the constructor state the Surface
holds at most one active context, of the class matching the current mode
(2D handle live exactly outside milkdrop mode, engine handle null there);
a draw call therefore never hits a context of the wrong type; and from any
reached bars-mode state the sequence bars -> milkdrop -> oscilloscope
performs exactly two canvas recreations. -/
theorem C1_context_mutual_exclusion (keys : List String) (idx : ℕ)
    (w h : ℚ) (audio : Bool) (evs : List Ev) :
    ctxInv (run (initState keys idx w h audio) evs)
    ∧ (∀ (m : MathEnv) (d : Option (List ℚ)) (n : Option ℕ),
        draw m (run (initState keys idx w h audio) evs) d n
          ≠ DrawOut.jsTypeError)
    ∧ (∀ g1 g2 : Bool,
        (run (initState keys idx w h audio) evs).type = "bars" →
        (run (run (initState keys idx w h audio) evs)
            [Ev.setTypeE g1 "milkdrop",
             Ev.setTypeE g2 "oscilloscope"]).recreations
          = (run (initState keys idx w h audio) evs).recreations + 2) := by
  have hinv := ctxInv_run _ evs (initState_ctxInv keys idx w h audio)
  refine ⟨hinv, fun m d n => draw_ne_typeError m _ hinv d n, ?_⟩
  intro g1 g2 hbars
  set s := run (initState keys idx w h audio) evs with hs
  show (setType g2 (setType g1 s "milkdrop") "oscilloscope").recreations
      = s.recreations + 2
  rw [setType_recreations, setType_recreations]
  have h1 : (setType g1 s "milkdrop").type = "milkdrop" :=
    (setType_fields g1 s "milkdrop").1
  rw [h1, hbars]
  rw [if_neg (by decide : ¬ ((("oscilloscope" : String) == "milkdrop")
        = (("milkdrop" : String) == "milkdrop")))]
  rw [if_neg (by decide : ¬ ((("milkdrop" : String) == "milkdrop")
        = (("bars" : String) == "milkdrop")))]

/-- C1 witness: concrete run reaching bars mode, then the two-recreation
scenario, via C1_context_mutual_exclusion. -/
theorem C1_context_mutual_exclusion_witness :
    ctxInv (run (initState ["alpha"] 0 8 6 false) [Ev.setTypeE true "bars"])
    ∧ (run (run (initState ["alpha"] 0 8 6 false) [Ev.setTypeE true "bars"])
          [Ev.setTypeE true "milkdrop",
           Ev.setTypeE true "oscilloscope"]).recreations
        = (run (initState ["alpha"] 0 8 6 false)
            [Ev.setTypeE true "bars"]).recreations + 2 := by
  have h := C1_context_mutual_exclusion ["alpha"] 0 8 6 false
    [Ev.setTypeE true "bars"]
  exact ⟨h.1, h.2.2 true true (by decide)⟩

/-- C2 counterexample: at scheme rainbow, index 0, total 4 and intensity
128/255 (sample value 128), the code's lightness is the non-integer
50 + (128/255)·20 = 3062/51, so getColor differs from the claim's
reading in which every channel value is floored. -/
theorem C2_counterexample :
    getColor "rainbow" 0 4 (128 / 255)
      ≠ colorSpecFloored "rainbow" 0 4 (128 / 255) := by
  unfold getColor colorSpecFloored
  simp only [reduceIte, String.reduceEq]
  norm_num

/-- C2 (amended): getColor reproduces the section 4.1 formulas exactly,
with the four RGB schemes floored per channel; rainbow returns the exact
(unfloored) hue 360·(index/total), saturation 100 and lightness
50 + 20·intensity; classic at intensity 1 is rgb(0,150,255) for every
index. -/
theorem C2_color_mapping (index total intensity : ℚ) :
    getColor "classic" index total intensity
        = JsColor.rgb 0 ⌊150 * intensity⌋ ⌊100 + 155 * intensity⌋
    ∧ getColor "fire" index total intensity
        = JsColor.rgb ⌊200 + 55 * intensity⌋ ⌊100 * intensity⌋ 0
    ∧ getColor "ocean" index total intensity
        = JsColor.rgb 0 ⌊200 * intensity⌋ ⌊150 + 105 * intensity⌋
    ∧ getColor "neon" index total intensity
        = JsColor.rgb 0 ⌊200 + 55 * intensity⌋ ⌊100 * intensity⌋
    ∧ getColor "rainbow" index total intensity
        = JsColor.hsl (360 * (index / total)) 100 (50 + 20 * intensity)
    ∧ getColor "classic" index total 1 = JsColor.rgb 0 150 255 := by
  unfold getColor
  simp only [reduceIte, String.reduceEq]
  norm_num [mul_comm]

/-- C3: from any state whose timer bookkeeping is consistent, with the
engine instance live and the preset in the catalog, setPreset auto
followed by a concrete setPreset before any tick loads exactly the
explicit preset, leaves no live timer, and later ticks are no-ops (no
auto-selected preset is ever loaded); moreover after any event sequence
from the constructor state at most one rotation timer is live. -/
theorem C3_auto_rotation_cancel (s : VizState) (rs : List ℕ)
    (hT : timerInv s) (hbc : s.butterchurnVisualizer = true)
    (hk : "stormy-night" ∈ s.presetKeys) :
    (setPreset (setPreset s "auto") "stormy-night").loads
        = s.loads ++ [("stormy-night", 2)]
    ∧ (setPreset (setPreset s "auto") "stormy-night").autoRotateInterval
        = none
    ∧ (setPreset (setPreset s "auto") "stormy-night").liveTimers = []
    ∧ run (setPreset (setPreset s "auto") "stormy-night") (rs.map Ev.tickE)
        = setPreset (setPreset s "auto") "stormy-night"
    ∧ ∀ (keys : List String) (idx : ℕ) (w hh : ℚ) (audio : Bool)
        (evs : List Ev),
        (run (initState keys idx w hh audio) evs).liveTimers.length ≤ 1 := by
  set sA := setPreset s "auto" with hsA
  have hsAeq : sA = startAutoRotate { s with isAutoRotating := true } := by
    rw [hsA]
    unfold setPreset
    rw [if_pos rfl]
  have hT1 : timerInv sA := by
    rw [hsAeq]
    apply timerInv_startAutoRotate
    unfold timerInv at hT ⊢
    simpa using hT
  have hbcA : sA.butterchurnVisualizer = true := by
    rw [hsAeq]; simp [hbc]
  have hkA : "stormy-night" ∈ sA.presetKeys := by
    rw [hsAeq]; simpa using hk
  have hloadsA : sA.loads = s.loads := by
    rw [hsAeq]; simp
  have hsB : setPreset sA "stormy-night"
      = loadPreset (stopAutoRotate { sA with isAutoRotating := false })
          "stormy-night" := by
    unfold setPreset
    rw [if_neg (by decide : ¬ (("stormy-night" : String) = "auto"))]
  have hTX : timerInv { sA with isAutoRotating := false } := by
    unfold timerInv at hT1 ⊢
    simpa using hT1
  have hstopLive :
      (stopAutoRotate { sA with isAutoRotating := false }).liveTimers
        = [] := by
    have h2 := timerInv_stopAutoRotate _ hTX
    unfold timerInv at h2
    simpa [timerList] using h2
  have hcond : (stopAutoRotate { sA with isAutoRotating := false
      }).butterchurnVisualizer = true
      ∧ "stormy-night" ∈ (stopAutoRotate { sA with isAutoRotating := false
      }).presetKeys := by
    constructor
    · simp [hbcA]
    · simpa using hkA
  have hloads : (setPreset sA "stormy-night").loads
      = s.loads ++ [("stormy-night", 2)] := by
    rw [hsB]
    unfold loadPreset
    rw [if_pos hcond]
    simp [hloadsA]
  have hint : (setPreset sA "stormy-night").autoRotateInterval = none := by
    rw [hsB]; simp
  have hlive : (setPreset sA "stormy-night").liveTimers = [] := by
    rw [hsB]; simp [hstopLive]
  refine ⟨hloads, hint, hlive, run_ticks_of_noTimer _ hint rs, ?_⟩
  intro keys idx w hh audio evs
  have hrun := timerInv_run _ evs (initState_timerInv keys idx w hh audio)
  unfold timerInv at hrun
  rw [hrun]
  cases (run (initState keys idx w hh audio) evs).autoRotateInterval <;>
    simp [timerList]

/-- C3 witness: the scenario on a concrete milkdrop engine with catalog
containing the named preset, via C3_auto_rotation_cancel. -/
theorem C3_auto_rotation_cancel_witness :
    (setPreset (setPreset c3State "auto") "stormy-night").loads
        = c3State.loads ++ [("stormy-night", 2)]
    ∧ (setPreset (setPreset c3State "auto") "stormy-night"
        ).autoRotateInterval = none
    ∧ run (setPreset (setPreset c3State "auto") "stormy-night")
          ([7].map Ev.tickE)
        = setPreset (setPreset c3State "auto") "stormy-night" := by
  have h := C3_auto_rotation_cancel c3State [7] (by decide) (by decide)
    (by decide)
  exact ⟨h.1, h.2.1, h.2.2.2.1⟩

/-- C4 counterexample: in a 2D (bars) state a draw call with the buffer
absent does not fail with InvalidArgument or at all: the `i <
bufferLength` bound is false for an undefined bound, so the call completes
as a background-only frame. -/
theorem C4_counterexample :
    draw mEnv0 barsState none none
      = DrawOut.ops
          [CanvasOp.setFillStyle (FillStyle.color (JsColor.rgb 0 0 0)),
           CanvasOp.fillRect 0 0 8 6] := by
  decide

/-- C4 (amended): in preset-engine (milkdrop) mode draw ignores the buffer
and delegates the frame to the engine (rendered iff the instance exists);
otherwise it dispatches to the renderer matching the mode; a call with the
buffer absent does not fail, it behaves exactly as a call with an empty
buffer. -/
theorem C4_render_dispatch (m : MathEnv) (s : VizState) (d : List ℚ)
    (n : ℕ) :
    (s.type = "milkdrop" →
      ∀ (d1 : Option (List ℚ)) (n1 : Option ℕ),
        draw m s d1 n1 = DrawOut.delegated s.butterchurnVisualizer)
    ∧ (s.ctx2d = true → s.type = "bars" →
        draw m s (some d) (some n)
          = DrawOut.ops (drawBars s.width s.height s.colorScheme d n))
    ∧ (s.ctx2d = true → s.type = "oscilloscope" →
        draw m s (some d) (some n)
          = DrawOut.ops
              (drawOscilloscope s.width s.height s.colorScheme d n))
    ∧ (s.ctx2d = true → s.type = "spectrum" →
        draw m s (some d) (some n)
          = DrawOut.ops (drawSpectrum s.width s.height s.colorScheme d n))
    ∧ (s.ctx2d = true → s.type = "circular" →
        draw m s (some d) (some n)
          = DrawOut.ops
              (drawCircular m s.width s.height s.colorScheme d n))
    ∧ draw m s none none = draw m s (some []) (some 0) := by
  refine ⟨?_, ?_, ?_, ?_, ?_, rfl⟩
  · intro ht d1 n1
    unfold draw
    rw [if_pos ht]
  · intro hc ht
    unfold draw
    rw [ht, hc]
    simp
  · intro hc ht
    unfold draw
    rw [ht, hc]
    simp
  · intro hc ht
    unfold draw
    rw [ht, hc]
    simp
  · intro hc ht
    unfold draw
    rw [ht, hc]
    simp

/-- C4 witness: delegation on a concrete milkdrop state and dispatch on a
concrete bars state, via C4_render_dispatch. -/
theorem C4_render_dispatch_witness :
    draw mEnv0 c3State (some [1]) (some 1)
        = DrawOut.delegated c3State.butterchurnVisualizer
    ∧ draw mEnv0 barsState (some [2]) (some 1)
        = DrawOut.ops (drawBars barsState.width barsState.height
            barsState.colorScheme [2] 1) := by
  exact ⟨(C4_render_dispatch mEnv0 c3State [1] 1).1 (by decide) _ _,
         (C4_render_dispatch mEnv0 barsState [2] 1).2.1 (by decide)
           (by decide)⟩

/-- C5 counterexample: from oscilloscope mode, setting the unknown mode
"zigzag" stores "zigzag" as the mode and a subsequent draw renders with
the default bars renderer, not the last-known-good oscilloscope
renderer. -/
theorem C5_counterexample :
    (setType true oscState "zigzag").type = "zigzag"
    ∧ draw mEnv0 (setType true oscState "zigzag") (some [255]) (some 1)
        = DrawOut.ops (drawBars 8 6 "classic" [255] 1)
    ∧ drawBars 8 6 "classic" [255] 1
        ≠ drawOscilloscope 8 6 "classic" [255] 1 := by
  refine ⟨by decide, ?_, ?_⟩
  · have hR : setType true oscState "zigzag"
        = { oscState with type := "zigzag" } := by decide
    have hctx : oscState.ctx2d = true := by decide
    have hw : oscState.width = 8 := by decide
    have hh2 : oscState.height = 6 := by decide
    have hcs : oscState.colorScheme = "classic" := by decide
    rw [hR]
    unfold draw
    simp [hctx, hw, hh2, hcs]
  · intro hEq
    simp [drawBars, drawOscilloscope, barsLoop, oscLoop, bgOps] at hEq

/-- C5 (amended): an unknown scheme value makes every color lookup behave
as classic; an unknown mode value is stored as-is by setType (which never
raises), and a subsequent draw falls back to the default bars renderer
rather than to the last-known-good mode. -/
theorem C5_unknown_value_fallbacks (s : VizState) (scheme t : String)
    (g : Bool) (m : MathEnv) (index total intensity : ℚ) (d : List ℚ)
    (n : ℕ) :
    (scheme ∉ ["classic", "fire", "ocean", "rainbow", "neon"] →
      getColor scheme index total intensity
        = getColor "classic" index total intensity)
    ∧ (t ∉ ["bars", "oscilloscope", "spectrum", "circular", "milkdrop"] →
        (setType g s t).type = t
        ∧ (ctxInv s →
            draw m (setType g s t) (some d) (some n)
              = DrawOut.ops
                  (drawBars s.width s.height s.colorScheme d n))) := by
  constructor
  · intro hsc
    simp only [List.mem_cons, List.not_mem_nil, or_false, not_or] at hsc
    obtain ⟨h1, h2, h3, h4, h5⟩ := hsc
    unfold getColor
    rw [if_neg h1, if_neg h2, if_neg h3, if_neg h4, if_neg h5]
    simp only [reduceIte, String.reduceEq]
  · intro hmode
    simp only [List.mem_cons, List.not_mem_nil, or_false, not_or] at hmode
    obtain ⟨hb, ho, hsp, hci, hmk⟩ := hmode
    refine ⟨(setType_fields g s t).1, ?_⟩
    intro hctx
    have hinv := ctxInv_setType g s t hctx
    have htype : (setType g s t).type = t := (setType_fields g s t).1
    have hctx2 : (setType g s t).ctx2d = true := by
      unfold ctxInv at hinv
      rw [htype] at hinv
      rw [if_neg hmk] at hinv
      exact hinv.1
    unfold draw
    rw [htype, hctx2]
    rw [if_neg hmk]
    rw [if_neg (by simp : ¬ ((true : Bool) = false))]
    rw [if_neg hb, if_neg ho, if_neg hsp, if_neg hci]
    simp

/-- C5 witness: the fallbacks at the concrete scheme "plasma" and the
concrete mode "zigzag" on a concrete oscilloscope engine, via
C5_unknown_value_fallbacks. -/
theorem C5_unknown_value_fallbacks_witness :
    getColor "plasma" 1 2 (1 / 2) = getColor "classic" 1 2 (1 / 2)
    ∧ (setType true oscState "zigzag").type = "zigzag"
    ∧ draw mEnv0 (setType true oscState "zigzag") (some [255]) (some 1)
        = DrawOut.ops (drawBars oscState.width oscState.height
            oscState.colorScheme [255] 1) := by
  have h := C5_unknown_value_fallbacks oscState "plasma" "zigzag" true
    mEnv0 1 2 (1 / 2) [255] 1
  have h2 := h.2 (by decide)
  exact ⟨h.1 (by decide), h2.1, h2.2 (by decide)⟩

/-- C6 counterexample: circular with an empty buffer is not a
background-only draw: the unconditional center disc is still filled (with
glow). -/
theorem C6_counterexample :
    CanvasOp.fill ∈ drawCircular mEnv0 800 600 "classic" [] 0
    ∧ drawCircular mEnv0 800 600 "classic" [] 0 ≠ bgOps 800 600 := by
  constructor
  · simp [drawCircular, circularLoop, bgOps]
  · simp [drawCircular, circularLoop, bgOps]

/-- C6 (amended): with an empty buffer, bars and spectrum emit only the
background fill; oscilloscope additionally emits its fixed path
scaffolding, whose path holds the single point (W, H/2) and so strokes no
segment; circular additionally draws its unconditional center disc and
glow. -/
theorem C6_empty_buffer (m : MathEnv) (w h : ℚ) (scheme : String) :
    drawBars w h scheme [] 0 = bgOps w h
    ∧ drawSpectrum w h scheme [] 0 = bgOps w h
    ∧ drawOscilloscope w h scheme [] 0
        = bgOps w h ++
          [CanvasOp.setLineWidth 2,
           CanvasOp.setStrokeStyle (getColor scheme 0 1 1),
           CanvasOp.beginPath,
           CanvasOp.lineTo w (h / 2), CanvasOp.stroke,
           CanvasOp.setShadowBlur 10,
           CanvasOp.setShadowColor (getColor scheme 0 1 1),
           CanvasOp.stroke, CanvasOp.setShadowBlur 0]
    ∧ drawCircular m w h scheme [] 0
        = bgOps w h ++
          [CanvasOp.beginPath, CanvasOp.beginPath,
           CanvasOp.arc (w / 2) (h / 2) (min w h / 3 * 0.1) 0 (m.piV * 2),
           CanvasOp.setFillStyle (FillStyle.color (getColor scheme 0 1 1)),
           CanvasOp.fill, CanvasOp.setShadowBlur 20,
           CanvasOp.setShadowColor (getColor scheme 0 1 1),
           CanvasOp.fill, CanvasOp.setShadowBlur 0] := by
  refine ⟨?_, ?_, ?_, ?_⟩ <;>
    simp [drawBars, drawSpectrum, drawOscilloscope, drawCircular,
      barsLoop, spectrumLoop, oscLoop, circularLoop, bgOps]

/-- C7 counterexample: the out-of-range sample 300 is not treated as its
nearest boundary 255: the classic color channels derived from it are
floor(300/255*150) = 176 and floor(100 + 300/255*155) = 282, not the
150 and 255 a clamped sample would give, and the bar height overshoots. -/
theorem C7_counterexample :
    drawBars 100 100 "classic" [300] 1 ≠ drawBars 100 100 "classic" [255] 1
    ∧ drawBars 100 100 "classic" [300] 1
        = bgOps 100 100 ++
          [CanvasOp.setFillStyle (FillStyle.color (JsColor.rgb 0 176 282)),
           CanvasOp.fillRect 0 (100 - 300 / 255 * 100) (100 / 1)
             (300 / 255 * 100)] := by
  have hA : drawBars 100 100 "classic" [300] 1
      = bgOps 100 100 ++
        [CanvasOp.setFillStyle (FillStyle.color (JsColor.rgb 0 176 282)),
         CanvasOp.fillRect 0 (100 - 300 / 255 * 100) (100 / 1)
           (300 / 255 * 100)] := by
    simp [drawBars, barsLoop, bgOps, getColor]
    norm_num
  have hB : drawBars 100 100 "classic" [255] 1
      = bgOps 100 100 ++
        [CanvasOp.setFillStyle (FillStyle.color (JsColor.rgb 0 150 255)),
         CanvasOp.fillRect 0 (100 - 255 / 255 * 100) (100 / 1)
           (255 / 255 * 100)] := by
    simp [drawBars, barsLoop, bgOps, getColor]
  refine ⟨?_, hA⟩
  rw [hA, hB]
  simp [bgOps]

/-- C7 (amended): every 2D renderer is total on arbitrary rational
samples (no crash on unclamped input) and uses each sample raw: bars,
spectrum and circular derive color and geometry from sample/255 and
oscilloscope its ordinate from sample/128 without clamping, so
out-of-range samples yield proportionally out-of-range channel values,
heights and offsets instead of nearest-boundary behaviour. -/
theorem C7_unclamped_rendering (m : MathEnv) (width height : ℚ)
    (scheme : String) (d : List ℚ) (N : ℕ) :
    drawBars width height scheme d N
      = bgOps width height ++
        (List.range N).flatMap (fun i =>
          [CanvasOp.setFillStyle (FillStyle.color
             (getColor scheme (↑i) (↑N) (d.getD i 0 / 255))),
           CanvasOp.fillRect ((↑i) * (width / (↑N) + 1))
             (height - d.getD i 0 / 255 * height) (width / (↑N))
             (d.getD i 0 / 255 * height)])
    ∧ drawOscilloscope width height scheme d N
      = bgOps width height ++
        [CanvasOp.setLineWidth 2,
         CanvasOp.setStrokeStyle (getColor scheme 0 1 1),
         CanvasOp.beginPath]
        ++ (List.range N).flatMap (fun i =>
             if i = 0 then
               [CanvasOp.moveTo ((↑i) * (width / (↑N)))
                  (d.getD i 0 / 128 * height / 2)]
             else
               [CanvasOp.lineTo ((↑i) * (width / (↑N)))
                  (d.getD i 0 / 128 * height / 2)])
        ++ [CanvasOp.lineTo width (height / 2), CanvasOp.stroke,
            CanvasOp.setShadowBlur 10,
            CanvasOp.setShadowColor (getColor scheme 0 1 1),
            CanvasOp.stroke, CanvasOp.setShadowBlur 0]
    ∧ drawSpectrum width height scheme d N
      = bgOps width height ++
        (List.range N).flatMap (fun i =>
          [CanvasOp.setFillStyle (FillStyle.linearGradient 0
             (height - d.getD i 0 / 255 * height * 0.8) 0 height
             [(0, getColor scheme (↑i) (↑N) 1),
              (1, getColor scheme (↑i) (↑N) 0.3)]),
           CanvasOp.fillRect ((↑i) * (width / (↑N)))
             (height - d.getD i 0 / 255 * height * 0.8)
             (width / (↑N) - 1) (d.getD i 0 / 255 * height * 0.8),
           CanvasOp.setFillStyle (FillStyle.linearGradient 0 height 0
             (height + d.getD i 0 / 255 * height * 0.8 * 0.3)
             [(0, getColor scheme (↑i) (↑N) (d.getD i 0 / 255 * 0.3)),
              (1, JsColor.rgba 0 0 0 0)]),
           CanvasOp.fillRect ((↑i) * (width / (↑N))) height
             (width / (↑N) - 1)
             (d.getD i 0 / 255 * height * 0.8 * 0.3)])
    ∧ drawCircular m width height scheme d N
      = bgOps width height ++ [CanvasOp.beginPath]
        ++ (List.range N).flatMap (fun i =>
             [CanvasOp.setStrokeStyle
                (getColor scheme (↑i) (↑N) (d.getD i 0 / 255)),
              CanvasOp.setLineWidth 3, CanvasOp.beginPath,
              CanvasOp.moveTo
                (width / 2 + m.cosF ((↑i) / (↑N) * m.piV * 2)
                   * (min width height / 3))
                (height / 2 + m.sinF ((↑i) / (↑N) * m.piV * 2)
                   * (min width height / 3)),
              CanvasOp.lineTo
                (width / 2 + m.cosF ((↑i) / (↑N) * m.piV * 2)
                   * (min width height / 3
                      + d.getD i 0 / 255 * (min width height / 3)))
                (height / 2 + m.sinF ((↑i) / (↑N) * m.piV * 2)
                   * (min width height / 3
                      + d.getD i 0 / 255 * (min width height / 3))),
              CanvasOp.stroke])
        ++ [CanvasOp.beginPath,
            CanvasOp.arc (width / 2) (height / 2)
              (min width height / 3 * 0.1) 0 (m.piV * 2),
            CanvasOp.setFillStyle
              (FillStyle.color (getColor scheme 0 1 1)),
            CanvasOp.fill, CanvasOp.setShadowBlur 20,
            CanvasOp.setShadowColor (getColor scheme 0 1 1),
            CanvasOp.fill, CanvasOp.setShadowBlur 0] :=
  ⟨drawBars_closedForm width height scheme d N,
   drawOscilloscope_closedForm width height scheme d N,
   drawSpectrum_closedForm width height scheme d N,
   drawCircular_closedForm m width height scheme d N⟩

/-- C8: setType is idempotent: a second call with the same mode performs
no canvas recreation and leaves the entire engine state (mode, context
handles, timer state and all other fields) unchanged. -/
theorem C8_setType_idempotent (g1 g2 : Bool) (s : VizState) (t : String) :
    setType g2 (setType g1 s t) t = setType g1 s t
    ∧ (setType g2 (setType g1 s t) t).recreations
        = (setType g1 s t).recreations := by
  have htype : (setType g1 s t).type = t := (setType_fields g1 s t).1
  have hmain : setType g2 (setType g1 s t) t = setType g1 s t := by
    set s1 := setType g1 s t with hs1
    unfold setType
    dsimp only
    rw [htype]
    rw [if_pos rfl]
    rw [← htype]
  exact ⟨hmain, by rw [hmain]⟩

/-- C9: loadPreset on a catalog member (with the engine instance live)
issues exactly one engine transition with the fixed 2.0-second crossfade;
on an unknown identifier it is a strict no-op: the state is unchanged and
no engine call is made. -/
theorem C9_loadPreset_cases (s : VizState) (id : String) :
    (s.butterchurnVisualizer = true → id ∈ s.presetKeys →
      loadPreset s id = { s with loads := s.loads ++ [(id, 2)] })
    ∧ (id ∉ s.presetKeys → loadPreset s id = s) := by
  constructor
  · intro hbc hmem
    unfold loadPreset
    rw [if_pos ⟨hbc, hmem⟩]
  · intro hmem
    unfold loadPreset
    rw [if_neg (fun hx => hmem hx.2)]

/-- C9 witness: both branches at concrete inputs on a concrete milkdrop
engine, via C9_loadPreset_cases. -/
theorem C9_loadPreset_cases_witness :
    loadPreset c3State "stormy-night"
        = { c3State with loads := c3State.loads ++ [("stormy-night", 2)] }
    ∧ loadPreset c3State "unknown-preset" = c3State := by
  exact ⟨(C9_loadPreset_cases c3State "stormy-night").1 (by decide)
           (by decide),
         (C9_loadPreset_cases c3State "unknown-preset").2 (by decide)⟩

/-- C10: setType never changes the auto-rotation preference flag; leaving
milkdrop mode clears the rotation timer; and re-entering milkdrop mode
with an audio context bound and the flag still set re-creates the engine
instance and restarts the rotation timer without any new setPreset
call. -/
theorem C10_auto_rotation_across_modes (g : Bool) (s : VizState)
    (t : String) :
    (setType g s t).isAutoRotating = s.isAutoRotating
    ∧ (s.type = "milkdrop" → ¬ t = "milkdrop" →
        (setType g s t).autoRotateInterval = none)
    ∧ (¬ s.type = "milkdrop" → s.audioContext = true →
        s.isAutoRotating = true →
        (setType true s "milkdrop").butterchurnVisualizer = true
        ∧ ∃ tid, (setType true s "milkdrop").autoRotateInterval
            = some tid) := by
  refine ⟨(setType_fields g s t).2.1, ?_, ?_⟩
  · intro hs ht
    unfold setType
    dsimp only
    have hc : ¬ ((t == "milkdrop") = (s.type == "milkdrop")) := by
      rw [hs]
      simp [ht]
    rw [if_neg hc]
    have hw : ¬ ((t == "milkdrop") = true) :=
      fun hx => ht (beq_iff_eq.mp hx)
    rw [if_neg hw]
    simp
  · intro hs haud hrot
    unfold setType
    dsimp only
    have hc : ¬ (((("milkdrop" : String)) == "milkdrop")
        = (s.type == "milkdrop")) := by
      simp [hs]
    rw [if_neg hc]
    rw [if_pos (by simp : ((("milkdrop" : String)) == "milkdrop") = true)]
    have haud2 : (recreateCanvas { s with type := "milkdrop"
        }).audioContext = true := by
      simp [haud]
    rw [if_pos haud2]
    apply createB_success
    · simp
    · simp [hrot]

/-- C10 witness: from a concrete bars-mode engine with audio bound, one
setType back to milkdrop re-creates the engine and restarts the timer,
via C10_auto_rotation_across_modes. -/
theorem C10_auto_rotation_across_modes_witness :
    (setType true bars2State "milkdrop").butterchurnVisualizer = true
    ∧ ∃ tid, (setType true bars2State "milkdrop").autoRotateInterval
        = some tid := by
  exact (C10_auto_rotation_across_modes true bars2State "bars").2.2
    (by decide) (by decide) (by decide)

end MediaViz
